import Mathlib

/-!
Shallow embedding of `scripts/generate_pages.py` (landing-page generator):
CSV lead loading and validation, the JSON generation ledger, the HTML page
renderer, and the batch orchestrator, together with theorems about them.

JSON values are modelled by the inductive `Json`; the file system visible to
the script (the ledger file, the pages directory) is modelled by `FS`.
Machine-level details (file encodings, the real clock) are abstracted: the
run timestamp and the footer date are explicit parameters.
-/

namespace GeneratePages

/-- A JSON value, as produced by `json.load` / consumed by `json.dumps`.
Objects are association lists with distinct keys (Python dicts). -/
inductive Json where
  | null
  | bool (b : Bool)
  | num (n : Int)
  | str (s : String)
  | arr (items : List Json)
  | obj (fields : List (String × Json))

/-- Equality of a JSON value with a given string value is decidable by a
case split (no recursion into nested values is needed). -/
instance Json.decEqStrRight (x : Json) (s : String) : Decidable (x = Json.str s) :=
  match x with
  | Json.str a =>
    if h : a = s then Decidable.isTrue (by rw [h])
    else Decidable.isFalse (fun hc => h (Json.str.inj hc))
  | Json.null => Decidable.isFalse (fun hc => Json.noConfusion hc)
  | Json.bool _ => Decidable.isFalse (fun hc => Json.noConfusion hc)
  | Json.num _ => Decidable.isFalse (fun hc => Json.noConfusion hc)
  | Json.arr _ => Decidable.isFalse (fun hc => Json.noConfusion hc)
  | Json.obj _ => Decidable.isFalse (fun hc => Json.noConfusion hc)

instance Json.decEqStrLeft (s : String) (x : Json) : Decidable (Json.str s = x) :=
  decidable_of_iff (x = Json.str s) eq_comm

/-- Python `d.get(k)` on a JSON object's field list: first binding wins. -/
def jget (fields : List (String × Json)) (k : String) : Option Json :=
  (fields.find? (fun p => p.1 == k)).map (fun p => p.2)

/-- A CSV row as handed to `Lead.from_row` by `csv.DictReader`: an
association list from column name to cell value.  A column whose value is
Python `None` (short row) is modelled as an absent key, since the only reads
are truthiness tests and guarded access. -/
abbrev Row : Type := List (String × String)

/-- Python `row.get(field)`. -/
def rowGet (row : Row) (f : String) : Option String :=
  (row.find? (fun p => p.1 == f)).map (fun p => p.2)

/-- The `required_fields` list of `Lead.from_row`. -/
def required_fields : List String :=
  ["slug", "business_name", "city", "service", "pain_point", "offer"]

/-- Python `not row.get(field)`: the field is absent or its raw value is the
empty string (falsy), before any trimming. -/
def fieldMissing (row : Row) (f : String) : Bool :=
  match rowGet row f with
  | none => true
  | some v => v.isEmpty

/-- The `missing` list computed by `Lead.from_row`. -/
def rowMissing (row : Row) : List String :=
  required_fields.filter (fun f => fieldMissing row f)

/-- A validated lead record (dataclass `Lead`). -/
structure Lead where
  slug : String
  business_name : String
  city : String
  service : String
  pain_point : String
  offer : String
deriving DecidableEq, Repr

/-- Python `str.strip()`: drop whitespace from both ends (written by
structural recursion on the character list so that it computes). -/
def strip (s : String) : String :=
  String.mk ((((s.data.dropWhile Char.isWhitespace).reverse).dropWhile
    Char.isWhitespace).reverse)

/-- The lead built in the success branch of `Lead.from_row`:
each required field read from the row and stripped. -/
def leadOfRow (row : Row) : Lead :=
  { slug := strip ((rowGet row "slug").getD "")
    business_name := strip ((rowGet row "business_name").getD "")
    city := strip ((rowGet row "city").getD "")
    service := strip ((rowGet row "service").getD "")
    pain_point := strip ((rowGet row "pain_point").getD "")
    offer := strip ((rowGet row "offer").getD "") }

/-- `Lead.from_row`: raises `ValueError` (modelled as `Except.error` carrying
the `missing` list) when any required field is absent or falsy, otherwise
returns the trimmed lead. -/
def Lead.from_row (row : Row) : Except (List String) Lead :=
  if rowMissing row = [] then Except.ok (leadOfRow row)
  else Except.error (rowMissing row)

/-- `load_leads`: one `Lead.from_row` per data row, in row order; the first
failing row aborts the whole load (the Python list comprehension propagates
the exception). -/
def load_leads : List Row → Except (List String) (List Lead)
  | [] => Except.ok []
  | row :: rest =>
    match Lead.from_row row with
    | Except.error e => Except.error e
    | Except.ok lead =>
      match load_leads rest with
      | Except.error e => Except.error e
      | Except.ok leads => Except.ok (lead :: leads)

/-- A ledger entry (dataclass `GeneratedEntry`).  Fields are JSON values:
the dataclass is not type-enforced, and `load_generated` stores whatever
JSON value the file held under each key. -/
structure GeneratedEntry where
  slug : Json
  created_at : Json
  source : Json

/-- `GeneratedEntry.to_dict`. -/
def GeneratedEntry.to_dict (e : GeneratedEntry) : Json :=
  Json.obj [("slug", e.slug), ("created_at", e.created_at), ("source", e.source)]

/-- The JSON payload written by `save_generated`:
`{"generated": [entry.to_dict() ...]}`. -/
def save_payload (entries : List GeneratedEntry) : Json :=
  Json.obj [("generated", Json.arr (entries.map GeneratedEntry.to_dict))]

/-- `data.get("generated", []) if isinstance(data, dict) else data`. -/
def entriesOf (data : Json) : Json :=
  match data with
  | Json.obj fields => (jget fields "generated").getD (Json.arr [])
  | _ => data

/-- Python `for item in entries` over a JSON value: a list iterates its
elements, a string iterates its characters (each a one-character string),
a dict iterates its keys; other values raise `TypeError`. -/
def iterJson : Json → Except String (List Json)
  | Json.arr items => Except.ok items
  | Json.str s => Except.ok (s.data.map (fun c => Json.str (String.mk [c])))
  | Json.obj fields => Except.ok (fields.map (fun p => Json.str p.1))
  | _ => Except.error "TypeError: object is not iterable"

/-- The skip/keep decision of the `load_generated` loop body, as a named
predicate: keep exactly the object-shaped items that have a `slug` key,
filling `created_at` with `""` and `source` with `"data/leads.csv"` when
absent. -/
def parseItem (item : Json) : Option GeneratedEntry :=
  match item with
  | Json.obj fields =>
    match jget fields "slug" with
    | none => none
    | some s =>
      some { slug := s
             created_at := (jget fields "created_at").getD (Json.str "")
             source := (jget fields "source").getD (Json.str "data/leads.csv") }
  | _ => none

/-- The accumulation loop of `load_generated`: items that are not dicts or
lack `"slug"` are skipped with `continue`, the rest are appended in order. -/
def loadLoop : List Json → List GeneratedEntry
  | [] => []
  | item :: rest =>
    match item with
    | Json.obj fields =>
      match jget fields "slug" with
      | none => loadLoop rest
      | some s =>
        { slug := s
          created_at := (jget fields "created_at").getD (Json.str "")
          source := (jget fields "source").getD (Json.str "data/leads.csv") }
          :: loadLoop rest
    | _ => loadLoop rest

/-- `load_generated` applied to the parsed content of an existing ledger
file. -/
def load_generated_data (data : Json) : Except String (List GeneratedEntry) :=
  (iterJson (entriesOf data)).map loadLoop

/-- `load_generated`: a missing file (`not path.exists()`) yields `[]`;
otherwise the file's JSON content is processed. -/
def load_generated (file : Option Json) : Except String (List GeneratedEntry) :=
  match file with
  | none => Except.ok []
  | some data => load_generated_data data

/-! ### Page renderer -/

/-- The three question/answer pairs built by `render_faq`. -/
def faqs (l : Lead) : List (String × String) :=
  [ ("Wie kann " ++ l.business_name ++ " mehr " ++ l.service.toLower
       ++ "-Anfragen in " ++ l.city ++ " gewinnen?",
     "Wir stellen die Stärken von " ++ l.business_name
       ++ " heraus, zeigen Referenzen und bauen klare Conversion-Elemente ein, damit Interessenten sofort Kontakt aufnehmen."),
    ("Was bedeutet das Angebot \"" ++ l.offer ++ "\" konkret?",
     "Wir entwickeln eine individuelle Landingpage, die das " ++ l.offer
       ++ " für " ++ l.business_name
       ++ " erklärt und Besuchern einen einfachen nächsten Schritt bietet."),
    ("Wie schnell geht die Umsetzung?",
     "In der Regel liefern wir innerhalb weniger Tage eine veröffentlichbare Seite und optimieren anschließend anhand echter Daten.") ]

/-- One `faq-item` div of `render_faq`.  (String literals here and below are
split and grouped at phrase boundaries; the concatenated text is exactly the
source's f-string text.) -/
def faqItem (qa : String × String) : String :=
  "<div class=\"faq-item\">\n  " ++ ("<h3>" ++ qa.1 ++ "</h3>") ++ "\n  "
    ++ ("<p>" ++ qa.2 ++ "</p>") ++ "\n</div>"

/-- `render_faq`: the three items joined by newlines. -/
def render_faq (l : Lead) : String :=
  String.intercalate "\n" ((faqs l).map faqItem)

/-- The `tagline` local of `render_page`. -/
def tagline (l : Lead) : String :=
  l.service ++ " in " ++ l.city ++ ": " ++ l.offer

/-- The `hero` section of `render_page`. -/
def hero (l : Lead) : String :=
  "<section class=\"hero\">\n  <h1>" ++ l.business_name ++ " – " ++ l.service
    ++ " in " ++ l.city ++ "</h1>\n  <p class=\"tagline\">" ++ tagline l
    ++ "</p>\n  <a class=\"cta\" href=\""
    ++ ("mailto:hello@example.com?subject=" ++ l.business_name ++ "%20Landingpage")
    ++ "\">Jetzt Beratung sichern</a>\n</section>"

/-- The `pain_section` of `render_page`. -/
def pain_section (l : Lead) : String :=
  "<section class=\"pain\">\n  <h2>" ++ ("Wir lösen: " ++ l.pain_point)
    ++ "</h2>\n  <p>Viele " ++ l.service ++ "-Teams in " ++ l.city
    ++ " verlieren täglich potenzielle Kunden, weil ihre Website nicht überzeugt. "
    ++ l.business_name
    ++ " bekommt eine Seite, die Vertrauen aufbaut, Fragen beantwortet und immer auf einen klaren CTA führt.</p>\n  <ul>\n    <li>"
    ++ ("Storytelling rund um " ++ l.business_name) ++ "</li>\n    <li>"
    ++ ("Lokale Beweise aus " ++ l.city)
    ++ "</li>\n    <li>Schlanke Kontaktwege für mehr Abschlüsse</li>\n  </ul>\n</section>"

/-- The `faq_section` of `render_page`. -/
def faq_section (l : Lead) : String :=
  "<section class=\"faq\">\n  <h2>Häufige Fragen</h2>\n  " ++ render_faq l ++ "\n</section>"

/-- The `footer` of `render_page`; `today` is `datetime.utcnow().strftime` of
`%d.%m.%Y`, passed explicitly here. -/
def footer (l : Lead) (today : String) : String :=
  "<footer>\n  <p>Seite für " ++ l.business_name ++ " "
    ++ ("erstellt am " ++ today ++ ".")
    ++ "</p>\n  <a class=\"cta secondary\" href=\""
    ++ ("mailto:hello@example.com?subject=" ++ l.business_name ++ "%20Projekt")
    ++ "\">Kostenloses Gespräch anfragen</a>\n</footer>"

/-- The inline `style` block of `render_page`, verbatim (braces written as
escapes). -/
def style : String :=
  "\n    <style>\n      :root \x7b font-family: \x27Inter\x27, Arial, sans-serif; color: #111827; background: #f9fafb; \x7d\n      body \x7b max-width: 900px; margin: 0 auto; padding: 24px; line-height: 1.6; \x7d\n      h1, h2, h3 \x7b color: #0f172a; margin-bottom: 8px; \x7d\n      .hero \x7b background: linear-gradient(120deg, #e0f2fe, #ecfeff); padding: 32px; border-radius: 16px; margin-bottom: 24px; \x7d\n      .tagline \x7b font-size: 1.1rem; margin-bottom: 16px; \x7d\n      .cta \x7b display: inline-block; padding: 12px 18px; background: #2563eb; color: #fff; border-radius: 12px; text-decoration: none; font-weight: 600; \x7d\n      .cta.secondary \x7b background: #0ea5e9; \x7d\n      .pain, .faq \x7b background: #fff; border-radius: 16px; padding: 24px; box-shadow: 0 10px 30px rgba(15, 23, 42, 0.05); margin-bottom: 24px; \x7d\n      ul \x7b padding-left: 20px; \x7d\n      .faq-item \x7b margin-bottom: 14px; \x7d\n      footer \x7b display: flex; justify-content: space-between; align-items: center; background: #f1f5f9; padding: 16px; border-radius: 12px; \x7d\n      @media (max-width: 640px) \x7b footer \x7b flex-direction: column; align-items: flex-start; gap: 12px; \x7d \x7d\n    </style>\n    "

/-- `render_page`: the full HTML document for one lead.  The generation date
(`datetime.utcnow().strftime` of `%d.%m.%Y` in the source) is the explicit
`today` parameter. -/
def render_page (l : Lead) (today : String) : String :=
  "<!DOCTYPE html>"
    ++ "\n<html lang=\"de\">\n<head>\n  <meta charset=\"UTF-8\" />\n  <meta name=\"viewport\" content=\"width=device-width, initial-scale=1.0\" />\n  <title>"
    ++ l.business_name ++ " – " ++ l.service ++ " in " ++ l.city
    ++ "</title>\n  " ++ style ++ "\n</head>\n<body>\n  " ++ hero l
    ++ "\n  " ++ pain_section l ++ "\n  " ++ faq_section l ++ "\n  "
    ++ footer l today ++ "\n</body>\n" ++ "</html>" ++ "\n"

/-! ### Batch orchestrator

The on-disk state visible to `main` is modelled by `FS`: the content of the
ledger file (`none` when the file does not exist), the files of the output
directory (newest write first), and whether the output directory exists. -/

structure FS where
  ledger : Option Json
  pages : List (String × String)
  outputDirExists : Bool

/-- Writing (or overwriting) one file in the output directory. -/
def setFile (ps : List (String × String)) (name content : String) :
    List (String × String) :=
  (name, content) :: ps.filter (fun p => p.1 != name)

/-- `save_generated` at the file-system level: a single full rewrite of the
ledger file with the serialized payload. -/
def save_generated (fs : FS) (entries : List GeneratedEntry) : FS :=
  { fs with ledger := some (save_payload entries) }

def BATCH_SIZE : Nat := 40

/-- `generated_slugs = {entry.slug for entry in generated_entries}` —
modelled as the list of slug values (only membership is ever used). -/
def generated_slugs (entries : List GeneratedEntry) : List Json :=
  entries.map (fun e => e.slug)

/-- `lead.slug in generated_slugs`. -/
def slugIsGenerated (entries : List GeneratedEntry) (l : Lead) : Bool :=
  (generated_slugs entries).any (fun s => decide (s = Json.str l.slug))

/-- `fresh_leads = [lead for lead in leads if lead.slug not in generated_slugs]`. -/
def fresh_leads (leads : List Lead) (entries : List GeneratedEntry) : List Lead :=
  leads.filter (fun l => !(slugIsGenerated entries l))

/-- `batch = fresh_leads[:BATCH_SIZE]`. -/
def batchOf (leads : List Lead) (entries : List GeneratedEntry) : List Lead :=
  (fresh_leads leads entries).take BATCH_SIZE

/-- Python set construction hashes each slug; list- or dict-valued slugs
raise `TypeError`.  All other modelled JSON values are hashable. -/
def hashableJson : Json → Bool
  | Json.arr _ => false
  | Json.obj _ => false
  | _ => true

/-- The ledger entry appended for one generated lead: the shared run
timestamp `now` and `str(CSV_PATH.relative_to(ROOT))` as source. -/
def newEntry (now : String) (l : Lead) : GeneratedEntry :=
  { slug := Json.str l.slug, created_at := Json.str now, source := Json.str "data/leads.csv" }

/-- `f"{lead.slug}.html"`. -/
def pageName (l : Lead) : String := l.slug ++ ".html"

/-- The per-lead loop of `main`: writes each page in batch order and records
a progress line; `cw` says whether writing a given lead's page file succeeds
(disk-full etc.).  On the first failed write the loop stops with the state
written so far; the in-memory entry list is lost with the process, so it is
not part of the result. -/
def processBatch (cw : String → Bool) (today : String) :
    FS → List String → List Lead → FS × List String × Option String
  | fs, out, [] => (fs, out, none)
  | fs, out, l :: rest =>
    if cw l.slug then
      processBatch cw today
        { fs with pages := setFile fs.pages (pageName l) (render_page l today) }
        (out ++ ["Generated pages/" ++ pageName l]) rest
    else (fs, out, some ("IOError: could not write pages/" ++ pageName l))

/-- The observable outcome of one run of `main`: final disk state, the
uncaught exception if any, and the progress lines printed. -/
structure RunResult where
  fs : FS
  error : Option String
  output : List String

/-- `main`: load leads and ledger, filter fresh leads, take the batch; stop
with no writes when the batch is empty; otherwise create the output
directory, write each page, and save the extended ledger once at the end. -/
def mainRun (cw : String → Bool) (now today : String) (rows : List Row)
    (fs : FS) : RunResult :=
  match load_leads rows with
  | Except.error missing =>
    { fs := fs
      error := some ("ValueError: Missing fields in CSV row: "
        ++ String.intercalate ", " missing)
      output := [] }
  | Except.ok leads =>
    match load_generated fs.ledger with
    | Except.error e => { fs := fs, error := some e, output := [] }
    | Except.ok entries =>
      if entries.all (fun e => hashableJson e.slug) then
        let batch := batchOf leads entries
        if batch.isEmpty then
          { fs := fs, error := none, output := ["No new leads to generate."] }
        else
          let fs1 := { fs with outputDirExists := true }
          match processBatch cw today fs1 [] batch with
          | (fs2, out, some e) => { fs := fs2, error := some e, output := out }
          | (fs2, out, none) =>
            { fs := save_generated fs2 (entries ++ batch.map (newEntry now))
              error := none
              output := out ++ ["Saved log to data/generated.json"] }
      else
        { fs := fs, error := some "TypeError: unhashable type", output := [] }

/-! ## Verbatim-substring machinery for the renderer -/

/-- `x` occurs verbatim (character for character, no escaping) inside `s`. -/
def strIn (x s : String) : Prop := x.data <:+: s.data

/-- Everything `render_page` emits before the generation date. -/
def pageBeforeDate (l : Lead) : String :=
  "<!DOCTYPE html>"
    ++ "\n<html lang=\"de\">\n<head>\n  <meta charset=\"UTF-8\" />\n  <meta name=\"viewport\" content=\"width=device-width, initial-scale=1.0\" />\n  <title>"
    ++ l.business_name ++ " – " ++ l.service ++ " in " ++ l.city
    ++ "</title>\n  " ++ style ++ "\n</head>\n<body>\n  " ++ hero l
    ++ "\n  " ++ pain_section l ++ "\n  " ++ faq_section l ++ "\n  "
    ++ ("<footer>\n  <p>Seite für " ++ l.business_name ++ " " ++ "erstellt am ")

/-- Everything `render_page` emits after the generation date. -/
def pageAfterDate (l : Lead) : String :=
  ("." ++ "</p>\n  <a class=\"cta secondary\" href=\""
      ++ ("mailto:hello@example.com?subject=" ++ l.business_name ++ "%20Projekt")
      ++ "\">Kostenloses Gespräch anfragen</a>\n</footer>")
    ++ "\n</body>\n" ++ "</html>" ++ "\n"

/-- The end-to-end sample lead of the spec (§8). -/
def sampleLead : Lead :=
  { slug := "acme-plumbing"
    business_name := "Acme Plumbing"
    city := "Berlin"
    service := "Klempnerei"
    pain_point := "Verlorene Anfragen"
    offer := "Kostenlose Erstberatung" }

/-- The fresh set as the spec words it: the subsequence of `leads`, in
original CSV order, of those leads whose slug appears in no ledger entry.
This definition follows the spec's sentence (not the code) and is compared
with `fresh_leads` in the C1 theorem. -/
def specFresh (leads : List Lead) (entries : List GeneratedEntry) : List Lead :=
  leads.filter (fun l => decide (∀ e ∈ entries, e.slug ≠ Json.str l.slug))

/-- The pages directory after writing the page files of `ls` in order. -/
def writeAll (today : String) (ps : List (String × String)) :
    List Lead → List (String × String)
  | [] => ps
  | l :: rest => writeAll today (setFile ps (pageName l) (render_page l today)) rest

/-- A lead row whose `pain_point` cell is whitespace only: truthy, so it
passes validation, and it strips to the empty string. -/
def wsRow : Row :=
  [("slug", "acme"), ("business_name", "Acme"), ("city", "Berlin"),
   ("service", "Klempnerei"), ("pain_point", "   "), ("offer", "Angebot")]

/-- A fully valid concrete row (slug `alpha`). -/
def rowA : Row :=
  [("slug", "alpha"), ("business_name", "Alpha GmbH"), ("city", "Berlin"),
   ("service", "Dachdeckerei"), ("pain_point", "Wenige Anfragen"), ("offer", "Gratis Check")]

/-- A fully valid concrete row (slug `beta`). -/
def rowB : Row :=
  [("slug", "beta"), ("business_name", "Beta AG"), ("city", "Hamburg"),
   ("service", "Malerei"), ("pain_point", "Kaum Sichtbarkeit"), ("offer", "Erstgespräch")]

/-- Disk state before a first run: no ledger file, no pages, no output dir. -/
def emptyFS : FS := { ledger := none, pages := [], outputDirExists := false }

/-- A concrete lead with the given slug, for the C1 example. -/
def exLead (s : String) : Lead :=
  { slug := s, business_name := "Beispiel GmbH", city := "Berlin",
    service := "Service", pain_point := "Problem", offer := "Angebot" }

/-- A ledger holding entries exactly for slugs `A` and `B`. -/
def exLedgerAB : List GeneratedEntry :=
  [ { slug := Json.str "A", created_at := Json.str "2025-01-01T00:00:00Z",
      source := Json.str "data/leads.csv" },
    { slug := Json.str "B", created_at := Json.str "2025-01-02T00:00:00Z",
      source := Json.str "data/leads.csv" } ]

/-- A write oracle under which every page file except `beta.html` can be
written (models a mid-batch I/O failure at the second page). -/
def failBeta : String → Bool := fun s => !(s == "beta")

theorem strInRefl (a : String) : strIn a a := List.infix_rfl

theorem strInL {x a b : String} (h : strIn x a) : strIn x (a ++ b) := by
  unfold strIn at h ⊢
  rw [String.data_append]
  exact h.trans ((List.prefix_append _ _).isInfix)

theorem strInR {x a b : String} (h : strIn x b) : strIn x (a ++ b) := by
  unfold strIn at h ⊢
  rw [String.data_append]
  exact h.trans ((List.suffix_append _ _).isInfix)

theorem strInTrans {x y z : String} (h₁ : strIn x y) (h₂ : strIn y z) : strIn x z :=
  List.IsInfix.trans h₁ h₂

theorem strIn_business_name_hero (l : Lead) : strIn l.business_name (hero l) := by
  unfold hero
  exact strInL (strInL (strInL (strInL (strInL (strInL (strInL (strInL (strInL (strInR (strInRefl _))))))))))

theorem strIn_service_hero (l : Lead) : strIn l.service (hero l) := by
  unfold hero
  exact strInL (strInL (strInL (strInL (strInL (strInL (strInL (strInR (strInRefl _))))))))

theorem strIn_city_hero (l : Lead) : strIn l.city (hero l) := by
  unfold hero
  exact strInL (strInL (strInL (strInL (strInL (strInR (strInRefl _))))))

theorem strIn_tagline_hero (l : Lead) : strIn (tagline l) (hero l) := by
  unfold hero
  exact strInL (strInL (strInL (strInR (strInRefl _))))

theorem strIn_offer_tagline (l : Lead) : strIn l.offer (tagline l) := by
  unfold tagline
  exact strInR (strInRefl _)

theorem strIn_cta_hero (l : Lead) :
    strIn ("mailto:hello@example.com?subject=" ++ l.business_name ++ "%20Landingpage")
      (hero l) := by
  unfold hero
  exact strInL (strInR (strInRefl _))

theorem strIn_headline_pain (l : Lead) :
    strIn ("Wir lösen: " ++ l.pain_point) (pain_section l) := by
  unfold pain_section
  exact strInL (strInL (strInL (strInL (strInL (strInL (strInL (strInL (strInL (strInL (strInL (strInR (strInRefl _))))))))))))

theorem strIn_bullet1_pain (l : Lead) :
    strIn ("Storytelling rund um " ++ l.business_name) (pain_section l) := by
  unfold pain_section
  exact strInL (strInL (strInL (strInR (strInRefl _))))

theorem strIn_bullet2_pain (l : Lead) :
    strIn ("Lokale Beweise aus " ++ l.city) (pain_section l) := by
  unfold pain_section
  exact strInL (strInR (strInRefl _))

theorem render_faq_eq (l : Lead) :
    render_faq l
      = faqItem ((faqs l).getD 0 ("", "")) ++ "\n" ++ faqItem ((faqs l).getD 1 ("", ""))
        ++ "\n" ++ faqItem ((faqs l).getD 2 ("", "")) := by
  simp [render_faq, faqs, String.intercalate, String.intercalate.go]

theorem strIn_faqItem0 (l : Lead) :
    strIn (faqItem ((faqs l).getD 0 ("", ""))) (render_faq l) := by
  rw [render_faq_eq]
  exact strInL (strInL (strInL (strInL (strInRefl _))))

theorem strIn_faqItem1 (l : Lead) :
    strIn (faqItem ((faqs l).getD 1 ("", ""))) (render_faq l) := by
  rw [render_faq_eq]
  exact strInL (strInL (strInR (strInRefl _)))

theorem strIn_faqItem2 (l : Lead) :
    strIn (faqItem ((faqs l).getD 2 ("", ""))) (render_faq l) := by
  rw [render_faq_eq]
  exact strInR (strInRefl _)

theorem strIn_render_faq_section (l : Lead) : strIn (render_faq l) (faq_section l) := by
  unfold faq_section
  exact strInL (strInR (strInRefl _))

theorem strIn_date_footer (l : Lead) (d : String) :
    strIn ("erstellt am " ++ d ++ ".") (footer l d) := by
  unfold footer
  exact strInL (strInL (strInL (strInR (strInRefl _))))

theorem strIn_cta2_footer (l : Lead) (d : String) :
    strIn ("mailto:hello@example.com?subject=" ++ l.business_name ++ "%20Projekt")
      (footer l d) := by
  unfold footer
  exact strInL (strInR (strInRefl _))

theorem strIn_hero_page (l : Lead) (d : String) : strIn (hero l) (render_page l d) := by
  unfold render_page
  exact strInL (strInL (strInL (strInL (strInL (strInL (strInL (strInL (strInL (strInR (strInRefl _))))))))))

theorem strIn_pain_page (l : Lead) (d : String) :
    strIn (pain_section l) (render_page l d) := by
  unfold render_page
  exact strInL (strInL (strInL (strInL (strInL (strInL (strInL (strInR (strInRefl _))))))))

theorem strIn_faq_page (l : Lead) (d : String) :
    strIn (faq_section l) (render_page l d) := by
  unfold render_page
  exact strInL (strInL (strInL (strInL (strInL (strInR (strInRefl _))))))

theorem strIn_footer_page (l : Lead) (d : String) :
    strIn (footer l d) (render_page l d) := by
  unfold render_page
  exact strInL (strInL (strInL (strInR (strInRefl _))))

theorem strIn_doctype_page (l : Lead) (d : String) :
    strIn "<!DOCTYPE html>" (render_page l d) := by
  unfold render_page
  exact strInL (strInL (strInL (strInL (strInL (strInL (strInL (strInL (strInL (strInL (strInL (strInL (strInL (strInL (strInL (strInL (strInL (strInL (strInL (strInRefl _)))))))))))))))))))

theorem strIn_closehtml_page (l : Lead) (d : String) :
    strIn "</html>" (render_page l d) := by
  unfold render_page
  exact strInL (strInR (strInRefl _))

/-- C8: `render_page` produces a complete HTML document containing the hero
section's business name, service, city and offer, the call-to-action mail
link whose subject encodes the business name, the pain-point headline and
the fixed bullet triad interpolated with business name/city, exactly three
FAQ question/answer items, and the footer's second call-to-action and
generation date — and each interpolated lead field appears verbatim in the
output (no HTML or URL escaping is applied). -/
theorem render_page_content (l : Lead) (d : String) :
    strIn l.business_name (render_page l d)
  ∧ strIn l.service (render_page l d)
  ∧ strIn l.city (render_page l d)
  ∧ strIn l.offer (render_page l d)
  ∧ strIn l.pain_point (render_page l d)
  ∧ strIn ("mailto:hello@example.com?subject=" ++ l.business_name ++ "%20Landingpage")
      (render_page l d)
  ∧ strIn ("Wir lösen: " ++ l.pain_point) (render_page l d)
  ∧ strIn ("Storytelling rund um " ++ l.business_name) (render_page l d)
  ∧ strIn ("Lokale Beweise aus " ++ l.city) (render_page l d)
  ∧ (faqs l).length = 3
  ∧ strIn (faqItem ((faqs l).getD 0 ("", ""))) (render_page l d)
  ∧ strIn (faqItem ((faqs l).getD 1 ("", ""))) (render_page l d)
  ∧ strIn (faqItem ((faqs l).getD 2 ("", ""))) (render_page l d)
  ∧ strIn ("erstellt am " ++ d ++ ".") (render_page l d)
  ∧ strIn ("mailto:hello@example.com?subject=" ++ l.business_name ++ "%20Projekt")
      (render_page l d)
  ∧ strIn "<!DOCTYPE html>" (render_page l d)
  ∧ strIn "</html>" (render_page l d) := by
  have hhero := strIn_hero_page l d
  have hpain := strIn_pain_page l d
  have hfaq := strInTrans (strIn_render_faq_section l) (strIn_faq_page l d)
  have hfoot := strIn_footer_page l d
  refine ⟨strInTrans (strIn_business_name_hero l) hhero,
    strInTrans (strIn_service_hero l) hhero,
    strInTrans (strIn_city_hero l) hhero,
    strInTrans (strIn_offer_tagline l) (strInTrans (strIn_tagline_hero l) hhero),
    strInTrans ?_ (strInTrans (strIn_headline_pain l) hpain),
    strInTrans (strIn_cta_hero l) hhero,
    strInTrans (strIn_headline_pain l) hpain,
    strInTrans (strIn_bullet1_pain l) hpain,
    strInTrans (strIn_bullet2_pain l) hpain,
    rfl,
    strInTrans (strIn_faqItem0 l) hfaq,
    strInTrans (strIn_faqItem1 l) hfaq,
    strInTrans (strIn_faqItem2 l) hfaq,
    strInTrans (strIn_date_footer l d) hfoot,
    strInTrans (strIn_cta2_footer l d) hfoot,
    strIn_doctype_page l d,
    strIn_closehtml_page l d⟩
  exact strInR (strInRefl _)

/-- C9: `render_page` is deterministic — equal leads and an equal generation
date give identical output — and beyond the lead the output depends only on
the date, which is spliced in at a single point of an otherwise
date-independent document. -/
theorem render_page_deterministic :
    (∀ (l₁ l₂ : Lead) (d : String), l₁ = l₂ → render_page l₁ d = render_page l₂ d)
  ∧ (∀ (l : Lead) (d : String),
      render_page l d = pageBeforeDate l ++ d ++ pageAfterDate l) := by
  constructor
  · intro l₁ l₂ d h
    rw [h]
  · intro l d
    unfold render_page footer pageBeforeDate pageAfterDate
    simp only [String.append_assoc]

/-- Witness for C9 at a concrete lead and date. -/
theorem render_page_deterministic_witness :
    render_page sampleLead "12.10.2025" = render_page sampleLead "12.10.2025" :=
  render_page_deterministic.1 sampleLead sampleLead "12.10.2025" rfl

/-! ## Ledger store -/

theorem loadLoop_eq_filterMap (items : List Json) :
    loadLoop items = items.filterMap parseItem := by
  induction items with
  | nil => rfl
  | cons item rest ih =>
    cases item with
    | obj fields =>
      cases h : jget fields "slug" with
      | none => simp [loadLoop, parseItem, h, ih]
      | some s => simp [loadLoop, parseItem, h, ih]
    | null => simp [loadLoop, parseItem, ih]
    | bool b => simp [loadLoop, parseItem, ih]
    | num n => simp [loadLoop, parseItem, ih]
    | str s => simp [loadLoop, parseItem, ih]
    | arr xs => simp [loadLoop, parseItem, ih]

theorem loadLoop_to_dict (entries : List GeneratedEntry) :
    loadLoop (entries.map GeneratedEntry.to_dict) = entries := by
  induction entries with
  | nil => rfl
  | cons e rest ih =>
    have hstep : loadLoop (GeneratedEntry.to_dict e :: rest.map GeneratedEntry.to_dict)
        = { slug := e.slug, created_at := e.created_at, source := e.source }
            :: loadLoop (rest.map GeneratedEntry.to_dict) := rfl
    rw [List.map_cons, hstep, ih]

/-- C5: saving any entry sequence with `save_generated` and loading the
written file with `load_generated` returns exactly the saved sequence (same
length, slugs, created_at and source values, in order); likewise when the
saved file is the bare-array legacy form of those entries. -/
theorem save_load_roundtrip (entries : List GeneratedEntry) :
    load_generated (some (save_payload entries)) = Except.ok entries
  ∧ load_generated (some (Json.arr (entries.map GeneratedEntry.to_dict)))
      = Except.ok entries := by
  constructor
  · show load_generated_data (save_payload entries) = Except.ok entries
    simp [load_generated_data, save_payload, entriesOf, jget, iterJson, Except.map,
      loadLoop_to_dict]
  · show load_generated_data (Json.arr (entries.map GeneratedEntry.to_dict))
        = Except.ok entries
    simp [load_generated_data, entriesOf, iterJson, Except.map, loadLoop_to_dict]

/-- C7: `load_generated` returns `[]` for a missing file, accepts both the
`{"generated": [...]}` object form and the bare-array legacy form, skips
exactly the items that are not objects or lack a `slug` key (keeping the
rest in order), and fills absent `created_at`/`source` with `""` and
`"data/leads.csv"`. -/
theorem load_generated_tolerant :
    load_generated none = Except.ok []
  ∧ (∀ items : List Json,
      load_generated (some (Json.arr items)) = Except.ok (items.filterMap parseItem))
  ∧ (∀ (fields : List (String × Json)) (items : List Json),
      jget fields "generated" = some (Json.arr items) →
        load_generated (some (Json.obj fields)) = Except.ok (items.filterMap parseItem))
  ∧ (∀ fields : List (String × Json),
      jget fields "generated" = none →
        load_generated (some (Json.obj fields)) = Except.ok [])
  ∧ (∀ item : Json,
      (parseItem item).isSome
        ↔ ∃ fields s, item = Json.obj fields ∧ jget fields "slug" = some s)
  ∧ (∀ (fields : List (String × Json)) (s : Json),
      jget fields "slug" = some s → jget fields "created_at" = none →
      jget fields "source" = none →
        parseItem (Json.obj fields)
          = some { slug := s, created_at := Json.str ""
                   source := Json.str "data/leads.csv" }) := by
  refine ⟨rfl, ?_, ?_, ?_, ?_, ?_⟩
  · intro items
    simp [load_generated, load_generated_data, entriesOf, iterJson, Except.map,
      loadLoop_eq_filterMap]
  · intro fields items h
    simp [load_generated, load_generated_data, entriesOf, h, iterJson, Except.map,
      loadLoop_eq_filterMap]
  · intro fields h
    simp [load_generated, load_generated_data, entriesOf, h, iterJson, Except.map,
      loadLoop]
  · intro item
    cases item with
    | obj fields =>
      cases h : jget fields "slug" with
      | none => simp [parseItem, h]
      | some s => simp [parseItem, h]
    | null => simp [parseItem]
    | bool b => simp [parseItem]
    | num n => simp [parseItem]
    | str s => simp [parseItem]
    | arr xs => simp [parseItem]
  · intro fields s h1 h2 h3
    simp [parseItem, h1, h2, h3]

/-- Witness for C7: a ledger object holding one malformed item and one
well-formed item with only a `slug` key loads to the single defaulted
entry; an object without a `generated` key loads to the empty ledger; and
`parseItem` fills both defaults on a slug-only item. -/
theorem load_generated_tolerant_witness :
    load_generated (some (Json.obj
        [("generated", Json.arr [Json.num 7, Json.obj [("slug", Json.str "acme")]])]))
      = Except.ok
          [{ slug := Json.str "acme", created_at := Json.str ""
             source := Json.str "data/leads.csv" }]
  ∧ load_generated (some (Json.obj [("other", Json.null)])) = Except.ok []
  ∧ parseItem (Json.obj [("slug", Json.str "acme")])
      = some { slug := Json.str "acme", created_at := Json.str ""
               source := Json.str "data/leads.csv" } :=
  ⟨load_generated_tolerant.2.2.1
    [("generated", Json.arr [Json.num 7, Json.obj [("slug", Json.str "acme")]])]
    [Json.num 7, Json.obj [("slug", Json.str "acme")]] rfl,
   load_generated_tolerant.2.2.2.1 [("other", Json.null)] rfl,
   load_generated_tolerant.2.2.2.2.2 [("slug", Json.str "acme")] (Json.str "acme")
     rfl rfl rfl⟩

/-! ## Lead loader -/

theorem load_leads_ok_of {rows : List Row} (h : ∀ r ∈ rows, rowMissing r = []) :
    load_leads rows = Except.ok (rows.map leadOfRow) := by
  induction rows with
  | nil => rfl
  | cons row rest ih =>
    have h0 : rowMissing row = [] := h row (List.mem_cons_self _ _)
    have hr : ∀ r ∈ rest, rowMissing r = [] :=
      fun r hr => h r (List.mem_cons_of_mem _ hr)
    simp [load_leads, Lead.from_row, h0, ih hr]

theorem load_leads_ok_inv : ∀ {rows : List Row} {leads : List Lead},
    load_leads rows = Except.ok leads →
    leads = rows.map leadOfRow ∧ ∀ r ∈ rows, rowMissing r = [] := by
  intro rows
  induction rows with
  | nil =>
    intro leads h
    simp [load_leads] at h
    simp [h.symm]
  | cons row rest ih =>
    intro leads h
    by_cases h0 : rowMissing row = []
    · rw [load_leads] at h
      simp [Lead.from_row, h0] at h
      cases hrest : load_leads rest with
      | error e => rw [hrest] at h; simp at h
      | ok ls =>
        rw [hrest] at h
        simp at h
        obtain ⟨hmap, hall⟩ := ih hrest
        subst hmap
        constructor
        · simp [h.symm]
        · intro r hr
          rcases List.mem_cons.mp hr with hr | hr
          · rw [hr]; exact h0
          · exact hall r hr
    · rw [load_leads] at h
      simp [Lead.from_row, h0] at h

theorem load_leads_error_of : ∀ {rows : List Row} (r : Row), r ∈ rows →
    rowMissing r ≠ [] →
    ∃ m, load_leads rows = Except.error m ∧ m ≠ []
      ∧ ∃ r' ∈ rows, m = rowMissing r' := by
  intro rows
  induction rows with
  | nil => intro r hr; cases hr
  | cons row rest ih =>
    intro r hr hm
    by_cases h0 : rowMissing row = []
    · have hrr : r ∈ rest := by
        rcases List.mem_cons.mp hr with hEq | hMem
        · exact absurd (hEq ▸ h0) hm
        · exact hMem
      obtain ⟨m, hload, hne, r', hr', hmr⟩ := ih r hrr hm
      refine ⟨m, ?_, hne, r', List.mem_cons_of_mem _ hr', hmr⟩
      simp [load_leads, Lead.from_row, h0, hload]
    · refine ⟨rowMissing row, ?_, h0, row, List.mem_cons_self _ _, rfl⟩
      simp [load_leads, Lead.from_row, h0]

/-- C3 (amended): `load_leads` succeeds exactly on inputs whose rows all
pass the pre-trim required-field check, returning one trimmed lead per row
in row order; any row with a required field absent or empty *before
trimming* makes the whole load fail with the list of offending field names
(no partial result).  A whitespace-only field passes the check and becomes
the empty string after trimming (see the counterexample). -/
theorem load_leads_spec :
    (∀ rows : List Row, (∀ r ∈ rows, rowMissing r = []) →
      load_leads rows = Except.ok (rows.map leadOfRow))
  ∧ (∀ (rows : List Row) (leads : List Lead), load_leads rows = Except.ok leads →
      leads = rows.map leadOfRow ∧ ∀ r ∈ rows, rowMissing r = [])
  ∧ (∀ (rows : List Row) (r : Row), r ∈ rows → rowMissing r ≠ [] →
      ∃ m, load_leads rows = Except.error m ∧ m ≠ []
        ∧ ∃ r' ∈ rows, m = rowMissing r') :=
  ⟨fun _ h => load_leads_ok_of h,
   fun _ _ h => load_leads_ok_inv h,
   fun _ r hr hm => load_leads_error_of r hr hm⟩

/-- Witness for C3 (amended): a valid one-row load succeeds with the trimmed
lead, and a row with all required fields missing or empty fails with a
non-empty list of offending field names. -/
theorem load_leads_spec_witness :
    load_leads [rowA] = Except.ok ([rowA].map leadOfRow)
  ∧ ([leadOfRow rowA] = [rowA].map leadOfRow ∧ ∀ r ∈ [rowA], rowMissing r = [])
  ∧ (∃ m, load_leads [[("slug", "")]] = Except.error m ∧ m ≠ []
      ∧ ∃ r' ∈ [[("slug", "")]], m = rowMissing r') :=
  ⟨load_leads_spec.1 [rowA] (by decide),
   load_leads_spec.2.1 [rowA] [leadOfRow rowA] rfl,
   load_leads_spec.2.2 [[("slug", "")]] [("slug", "")] (by decide) (by decide)⟩

/-- Counterexample to C3 as stated: the whitespace-only `pain_point` row
loads successfully, yet the returned lead's `pain_point` is the empty
string after trimming — so not every returned lead has all six required
fields non-empty after trimming. -/
theorem load_leads_trim_cex :
    load_leads [wsRow] = Except.ok
      [{ slug := "acme", business_name := "Acme", city := "Berlin",
         service := "Klempnerei", pain_point := "", offer := "Angebot" }]
  ∧ ({ slug := "acme", business_name := "Acme", city := "Berlin",
       service := "Klempnerei", pain_point := "", offer := "Angebot" } : Lead).pain_point
      = "" := by
  exact ⟨rfl, rfl⟩

/-- C10: `Lead.from_row` rejects a row exactly when some required field is
absent or maps to the empty string *before* trimming; a field holding only
whitespace is therefore accepted, and the built lead carries the empty
string for it after trimming. -/
theorem from_row_pretrim_validation :
    (∀ (row : Row) (f : String),
      fieldMissing row f = true ↔ (rowGet row f = none ∨ rowGet row f = some ""))
  ∧ (∀ row : Row,
      (∃ e, Lead.from_row row = Except.error e)
        ↔ ∃ f ∈ required_fields, fieldMissing row f = true)
  ∧ (∀ row : Row, rowMissing row = [] → Lead.from_row row = Except.ok (leadOfRow row))
  ∧ rowGet wsRow "pain_point" = some "   "
  ∧ Lead.from_row wsRow = Except.ok (leadOfRow wsRow)
  ∧ (leadOfRow wsRow).pain_point = "" := by
  refine ⟨?_, ?_, ?_, rfl, rfl, rfl⟩
  · intro row f
    unfold fieldMissing
    cases h : rowGet row f with
    | none => simp
    | some v =>
      simp [String.isEmpty_iff]
  · intro row
    unfold Lead.from_row
    by_cases h0 : rowMissing row = []
    · simp only [h0, if_pos]
      constructor
      · rintro ⟨e, he⟩; cases he
      · rintro ⟨f, hf, hmiss⟩
        have : f ∈ rowMissing row := List.mem_filter.mpr ⟨hf, hmiss⟩
        rw [h0] at this
        cases this
    · simp only [h0, if_neg, not_false_iff]
      constructor
      · intro _
        have : rowMissing row ≠ [] := h0
        rcases List.exists_mem_of_ne_nil _ this with ⟨f, hf⟩
        have := List.mem_filter.mp hf
        exact ⟨f, this.1, this.2⟩
      · intro _
        exact ⟨rowMissing row, by simp [h0]⟩
  · intro row h0
    simp [Lead.from_row, h0]

/-- Witness for C10: the validation iff at the whitespace row, and the two
concrete acceptance facts. -/
theorem from_row_pretrim_validation_witness :
    (fieldMissing wsRow "pain_point" = true
      ↔ (rowGet wsRow "pain_point" = none ∨ rowGet wsRow "pain_point" = some ""))
  ∧ Lead.from_row wsRow = Except.ok (leadOfRow wsRow) :=
  ⟨from_row_pretrim_validation.1 wsRow "pain_point",
   from_row_pretrim_validation.2.2.1 wsRow rfl⟩


/-! ## Batch orchestrator theorems -/
theorem anyNot_eq_allNe (x : String) (js : List Json) :
    (!(js.any fun s => decide (s = Json.str x))) = decide (∀ j ∈ js, j ≠ Json.str x) := by
  induction js with
  | nil => rfl
  | cons j rest ih =>
    by_cases h : j = Json.str x
    · simp [List.any_cons, h]
    · simp [List.any_cons, h, List.forall_mem_cons, ih]

theorem fresh_eq_spec (leads : List Lead) (entries : List GeneratedEntry) :
    fresh_leads leads entries = specFresh leads entries := by
  unfold fresh_leads specFresh
  apply List.filter_congr
  intro l _
  have h := anyNot_eq_allNe l.slug (generated_slugs entries)
  simp only [slugIsGenerated]
  rw [h]
  congr 1
  apply propext
  constructor
  · intro hall e he
    exact hall e.slug (List.mem_map_of_mem _ he)
  · intro hall j hj
    obtain ⟨e, he, rfl⟩ := List.mem_map.mp hj
    exact hall e he

/-- C1: the orchestrator's fresh set is exactly the subsequence of the
loaded leads whose slug appears in no ledger entry, in original CSV order,
and the batch is the first `BATCH_SIZE` (= 40) of it; in particular with
ledger slugs `A`, `B` and leads `A B C D` the fresh set is `C D`. -/
theorem fresh_batch_follows_spec :
    BATCH_SIZE = 40
  ∧ (∀ (leads : List Lead) (entries : List GeneratedEntry),
      fresh_leads leads entries = specFresh leads entries)
  ∧ (∀ (leads : List Lead) (entries : List GeneratedEntry),
      batchOf leads entries = (specFresh leads entries).take 40)
  ∧ fresh_leads [exLead "A", exLead "B", exLead "C", exLead "D"] exLedgerAB
      = [exLead "C", exLead "D"]
  ∧ batchOf [exLead "A", exLead "B", exLead "C", exLead "D"] exLedgerAB
      = [exLead "C", exLead "D"] := by
  refine ⟨rfl, fresh_eq_spec, ?_, rfl, rfl⟩
  intro leads entries
  unfold batchOf BATCH_SIZE
  rw [fresh_eq_spec]

/-- C2: when the computed batch is empty, `main` performs no writes at all:
the resulting disk state is exactly the initial one (ledger file, pages and
output directory all unchanged), no error is raised, and the run reports
that there are no new leads. -/
theorem empty_batch_noop (cw : String → Bool) (now today : String) (rows : List Row)
    (fs : FS) (leads : List Lead) (entries : List GeneratedEntry)
    (hl : load_leads rows = Except.ok leads)
    (hg : load_generated fs.ledger = Except.ok entries)
    (hh : entries.all (fun e => hashableJson e.slug) = true)
    (hb : batchOf leads entries = []) :
    mainRun cw now today rows fs
      = { fs := fs, error := none, output := ["No new leads to generate."] } := by
  unfold mainRun
  rw [hl, hg]
  simp [hh, hb]

theorem empty_batch_noop_witness :
    mainRun (fun _ => true) "2025-10-12T00:00:00Z" "12.10.2025" [] emptyFS
      = { fs := emptyFS, error := none, output := ["No new leads to generate."] } :=
  empty_batch_noop _ _ _ _ _ [] [] rfl rfl rfl rfl

theorem processBatch_ok (cw : String → Bool) (today : String) :
    ∀ (batch : List Lead) (fs : FS) (out : List String),
    (∀ l ∈ batch, cw l.slug = true) →
    processBatch cw today fs out batch
      = ({ fs with pages := writeAll today fs.pages batch },
         out ++ batch.map (fun l => "Generated pages/" ++ pageName l), none) := by
  intro batch
  induction batch with
  | nil => intro fs out h; simp [processBatch, writeAll]
  | cons l rest ih =>
    intro fs out h
    have hl : cw l.slug = true := h l (List.mem_cons_self _ _)
    have hr : ∀ x ∈ rest, cw x.slug = true :=
      fun x hx => h x (List.mem_cons_of_mem _ hx)
    simp [processBatch, hl, ih _ _ hr, writeAll]

theorem processBatch_fail (cw : String → Bool) (today : String) :
    ∀ (batch : List Lead) (fs : FS) (out : List String) (n : Nat)
      (hn : n < batch.length),
    (∀ l ∈ batch.take n, cw l.slug = true) →
    cw (batch.get ⟨n, hn⟩).slug = false →
    ∃ msg outMsgs, processBatch cw today fs out batch
      = ({ fs with pages := writeAll today fs.pages (batch.take n) }, outMsgs, some msg) := by
  intro batch
  induction batch with
  | nil => intro fs out n hn; exact absurd hn (by simp)
  | cons l rest ih =>
    intro fs out n hn hok hfail
    cases n with
    | zero =>
      refine ⟨"IOError: could not write pages/" ++ pageName l, out, ?_⟩
      simp only [List.get] at hfail
      simp [processBatch, hfail, writeAll]
    | succ m =>
      have hl : cw l.slug = true := hok l (by simp [List.take_succ_cons])
      have hn2 : m < rest.length := Nat.lt_of_succ_lt_succ (by simpa using hn)
      have hok2 : ∀ x ∈ rest.take m, cw x.slug = true :=
        fun x hx => hok x (by simp [List.take_succ_cons, hx])
      have hfail2 : cw (rest.get ⟨m, hn2⟩).slug = false := by
        simpa using hfail
      obtain ⟨msg, outMsgs, hres⟩ := ih
        { fs with pages := setFile fs.pages (pageName l) (render_page l today) }
        (out ++ ["Generated pages/" ++ pageName l]) m hn2 hok2 hfail2
      refine ⟨msg, outMsgs, ?_⟩
      simp [processBatch, hl, hres, writeAll, List.take_succ_cons]

/-- C4: if the run fails while writing the page at (0-based) index `n` of a
non-empty batch, the pages of the first `n` batch leads are written, the
run stops with an error, and the ledger file is unchanged from its state
before the run — the ledger save happens only after the whole batch loop
succeeds. -/
theorem midbatch_failure (cw : String → Bool) (now today : String) (rows : List Row)
    (fs : FS) (leads : List Lead) (entries : List GeneratedEntry) (n : Nat)
    (hl : load_leads rows = Except.ok leads)
    (hg : load_generated fs.ledger = Except.ok entries)
    (hh : entries.all (fun e => hashableJson e.slug) = true)
    (hn : n < (batchOf leads entries).length)
    (hok : ∀ l ∈ (batchOf leads entries).take n, cw l.slug = true)
    (hfail : cw ((batchOf leads entries).get ⟨n, hn⟩).slug = false) :
    (mainRun cw now today rows fs).fs.ledger = fs.ledger
  ∧ (mainRun cw now today rows fs).error.isSome = true
  ∧ (mainRun cw now today rows fs).fs.pages
      = writeAll today fs.pages ((batchOf leads entries).take n) := by
  have hne : (batchOf leads entries).isEmpty = false := by
    cases hb : batchOf leads entries with
    | nil => rw [hb] at hn; exact absurd hn (by simp)
    | cons a as => simp
  obtain ⟨msg, outMsgs, hres⟩ := processBatch_fail cw today (batchOf leads entries)
    { fs with outputDirExists := true } [] n hn hok hfail
  unfold mainRun
  rw [hl, hg]
  simp [hh, hne, hres]

theorem midbatch_failure_witness :
    (mainRun failBeta "2025-10-12T00:00:00Z" "12.10.2025" [rowA, rowB] emptyFS).fs.ledger
      = emptyFS.ledger
  ∧ (mainRun failBeta "2025-10-12T00:00:00Z" "12.10.2025" [rowA, rowB] emptyFS).error.isSome
      = true :=
  have h := midbatch_failure failBeta "2025-10-12T00:00:00Z" "12.10.2025" [rowA, rowB]
    emptyFS [leadOfRow rowA, leadOfRow rowB] [] 1 rfl rfl rfl (by decide) (by decide) (by decide)
  ⟨h.1, h.2.1⟩

/-- C6: a successful run over a non-empty batch saves, in one full rewrite,
a ledger equal to the previously loaded entries followed by exactly one new
entry per batch lead in batch order, each carrying the shared run timestamp
as `created_at` and the input CSV path as `source`; the printed output
reports each generated page and the final save. -/
theorem full_batch_saves_ledger (cw : String → Bool) (now today : String)
    (rows : List Row) (fs : FS) (leads : List Lead) (entries : List GeneratedEntry)
    (hl : load_leads rows = Except.ok leads)
    (hg : load_generated fs.ledger = Except.ok entries)
    (hh : entries.all (fun e => hashableJson e.slug) = true)
    (hne : (batchOf leads entries).isEmpty = false)
    (hw : ∀ l ∈ batchOf leads entries, cw l.slug = true) :
    (mainRun cw now today rows fs).error = none
  ∧ (mainRun cw now today rows fs).fs.ledger
      = some (save_payload (entries ++ (batchOf leads entries).map (newEntry now)))
  ∧ (∀ e ∈ (batchOf leads entries).map (newEntry now),
      e.created_at = Json.str now ∧ e.source = Json.str "data/leads.csv")
  ∧ (mainRun cw now today rows fs).output
      = (batchOf leads entries).map (fun l => "Generated pages/" ++ pageName l)
          ++ ["Saved log to data/generated.json"] := by
  have hres := processBatch_ok cw today (batchOf leads entries)
    { fs with outputDirExists := true } [] hw
  unfold mainRun
  rw [hl, hg]
  simp [hh, hne, hres, save_generated, newEntry]

theorem full_batch_saves_ledger_witness :
    (mainRun (fun _ => true) "2025-10-12T00:00:00Z" "12.10.2025" [rowA] emptyFS).fs.ledger
      = some (save_payload ([] ++ (batchOf [leadOfRow rowA] []).map
          (newEntry "2025-10-12T00:00:00Z"))) :=
  (full_batch_saves_ledger (fun _ => true) "2025-10-12T00:00:00Z" "12.10.2025" [rowA]
    emptyFS [leadOfRow rowA] [] rfl rfl rfl (by decide) (by decide)).2.1

end GeneratePages
